import Mathlib

/-!
Shallow embedding of the first-person voxel sandbox demo (App.tsx and the
earlier revision of the same file).  The continuous player/camera state is
modelled over the real numbers; the external rendering library is treated as
a collaborator, so the ray-cast query appears as an input (the ordered hit
list) rather than being re-implemented.  Terrain generation and block edits
are modelled exactly, over integers, with object identity of meshes rendered
as a numeric id.
-/

namespace VibeCoding

/-- Block type constants (`BLOCK_TYPES` in App.tsx). -/
def GRASS : ℕ := 0

/-- `BLOCK_TYPES.DIRT`. -/
def DIRT : ℕ := 1

/-- `BLOCK_TYPES.STONE`. -/
def STONE : ℕ := 2

/-- `BLOCK_TYPES.WOOD`. -/
def WOOD : ℕ := 3

/-- `const MOVEMENT_SPEED = 0.015`. -/
noncomputable def MOVEMENT_SPEED : ℝ := 0.015

/-- `const ROTATION_SPEED = 0.002`. -/
noncomputable def ROTATION_SPEED : ℝ := 0.002

/-- `const HEAD_BOB_AMPLITUDE = 0.05`. -/
noncomputable def HEAD_BOB_AMPLITUDE : ℝ := 0.05

/-- `const HEAD_BOB_FREQUENCY = 0.1`. -/
noncomputable def HEAD_BOB_FREQUENCY : ℝ := 0.1

/-- A three.js `Vector3`, over the reals. -/
structure Vec3 where
  x : ℝ
  y : ℝ
  z : ℝ

/-- A three.js `Euler` rotation: `x` is pitch, `y` is yaw, `z` is roll. -/
structure Euler where
  x : ℝ
  y : ℝ
  z : ℝ

/-- `Vector3.add` (componentwise). -/
noncomputable def Vec3.add (a b : Vec3) : Vec3 :=
  ⟨a.x + b.x, a.y + b.y, a.z + b.z⟩

/-- `Vector3.multiplyScalar`. -/
noncomputable def Vec3.multiplyScalar (v : Vec3) (s : ℝ) : Vec3 :=
  ⟨v.x * s, v.y * s, v.z * s⟩

/-- `Vector3.length` — `sqrt(x*x + y*y + z*z)`. -/
noncomputable def Vec3.length (v : Vec3) : ℝ :=
  Real.sqrt (v.x * v.x + v.y * v.y + v.z * v.z)

/-- `Vector3.normalize` — three.js divides by `length() || 1`, so the zero
vector (length `0`, falsy) is divided by `1` and stays zero. -/
noncomputable def Vec3.normalize (v : Vec3) : Vec3 :=
  let l := v.length
  let d := if l = 0 then 1 else l
  ⟨v.x / d, v.y / d, v.z / d⟩

/-- `Vector3.applyEuler` specialised to the rotation `new Euler(0, yaw, 0)`
used by `updatePlayerMovement`: a pure rotation about the Y axis. -/
noncomputable def applyEulerY (yaw : ℝ) (v : Vec3) : Vec3 :=
  ⟨Real.cos yaw * v.x + Real.sin yaw * v.z,
   v.y,
   -(Real.sin yaw) * v.x + Real.cos yaw * v.z⟩

/-- The raw (pre-normalization) movement direction built from the four intent
flags at the top of `updatePlayerMovement`:
`z -= 1` if forward, `z += 1` if backward, `x -= 1` if left, `x += 1` if
right, starting from the zero vector. -/
noncomputable def rawDirection (f b l r : Bool) : Vec3 :=
  { x := (if l then -1 else 0) + (if r then 1 else 0)
    y := 0
    z := (if f then -1 else 0) + (if b then 1 else 0) }

/-- The mutable player/camera state of `App`: the four movement intent refs,
the `isMoving` ref, the head-bob `time` ref, the persisted `playerPosition`,
the `playerRotation` Euler, and the camera pose written each frame. -/
structure PlayerState where
  moveForward : Bool
  moveBackward : Bool
  moveLeft : Bool
  moveRight : Bool
  isMoving : Bool
  time : ℝ
  playerPosition : Vec3
  playerRotation : Euler
  cameraPosition : Vec3
  cameraRotation : Euler

/-- The initial state: `playerPosition = (0, 2, 0)`, `playerRotation =
(0, 0, 0)`, all intent refs `false`, `time = 0`; the camera starts at the
player position (`camera.position.copy(playerPosition)` in setup). -/
noncomputable def initState : PlayerState :=
  { moveForward := false
    moveBackward := false
    moveLeft := false
    moveRight := false
    isMoving := false
    time := 0
    playerPosition := ⟨0, 2, 0⟩
    playerRotation := ⟨0, 0, 0⟩
    cameraPosition := ⟨0, 2, 0⟩
    cameraRotation := ⟨0, 0, 0⟩ }

/-- `updatePlayerMovement` (App.tsx, the per-frame movement integrator):
build the raw direction from the intent flags, normalize it, rotate it about
the Y axis by the yaw, override its `y` with `sin(pitch)` when moving
forward or backward, scale by `MOVEMENT_SPEED` and add to the persisted
position; then advance the head-bob clock by `0.016`, compute the head-bob
offset from the (previous frame's) `isMoving` flag, copy the position plus
offset into the camera, set the camera rotation with roll forced to `0`,
and finally record whether any intent flag is set into `isMoving`. -/
noncomputable def updatePlayerMovement (st : PlayerState) : PlayerState :=
  let d0 := rawDirection st.moveForward st.moveBackward st.moveLeft st.moveRight
  let d1 := d0.normalize
  let d2 := applyEulerY st.playerRotation.y d1
  let d3 := if st.moveForward || st.moveBackward then
              { d2 with y := Real.sin st.playerRotation.x }
            else d2
  let newPos := st.playerPosition.add (d3.multiplyScalar MOVEMENT_SPEED)
  let newTime := st.time + 0.016
  let headBobY := if st.isMoving then
                    Real.sin (newTime * HEAD_BOB_FREQUENCY) * HEAD_BOB_AMPLITUDE
                  else 0
  { st with
    playerPosition := newPos
    time := newTime
    cameraPosition := ⟨newPos.x, newPos.y + headBobY, newPos.z⟩
    cameraRotation := ⟨st.playerRotation.x, st.playerRotation.y, 0⟩
    isMoving := st.moveForward || st.moveBackward || st.moveLeft || st.moveRight }

/-- `panResponder.onPanResponderMove` (the drag-to-look handler), as a pure
update of the `playerRotation` Euler by one move event's `(dx, dy)`:
`y -= dx * ROTATION_SPEED`, `x -= dy * ROTATION_SPEED`, `z = 0`, then
`x = max(-PI/2, min(PI/2, x))`. -/
noncomputable def onDragMove (rot : Euler) (dx dy : ℝ) : Euler :=
  let ry := rot.y - dx * ROTATION_SPEED
  let rx := rot.x - dy * ROTATION_SPEED
  let rxClamped := max (-(Real.pi / 2)) (min (Real.pi / 2) rx)
  ⟨rxClamped, ry, 0⟩

/-- `handleKeyDown`: sets the matching intent flag; other keys are ignored
(the key is already lower-cased by the caller). -/
def handleKeyDown (key : String) (st : PlayerState) : PlayerState :=
  if key = "w" then { st with moveForward := true }
  else if key = "s" then { st with moveBackward := true }
  else if key = "a" then { st with moveLeft := true }
  else if key = "d" then { st with moveRight := true }
  else st

/-- `handleKeyUp`: clears the matching intent flag; other keys are ignored. -/
def handleKeyUp (key : String) (st : PlayerState) : PlayerState :=
  if key = "w" then { st with moveForward := false }
  else if key = "s" then { st with moveBackward := false }
  else if key = "a" then { st with moveLeft := false }
  else if key = "d" then { st with moveRight := false }
  else st

/-- `handleJoystickMove` (current App.tsx revision): `magnitude =
min(1, sqrt(x*x + y*y))`; when `magnitude > 0.1` the components are divided
by the magnitude and each flag is set by thresholding against `0.5`, and
`isMoving` is set; otherwise all four flags and `isMoving` are cleared. -/
noncomputable def handleJoystickMove (x y : ℝ) (st : PlayerState) : PlayerState :=
  let magnitude := min 1 (Real.sqrt (x * x + y * y))
  if magnitude > 0.1 then
    let normalizedX := x / magnitude
    let normalizedY := y / magnitude
    { st with
      moveForward := if normalizedY < -0.5 then true else false
      moveBackward := if normalizedY > 0.5 then true else false
      moveLeft := if normalizedX < -0.5 then true else false
      moveRight := if normalizedX > 0.5 then true else false
      isMoving := true }
  else
    { st with
      moveForward := false
      moveBackward := false
      moveLeft := false
      moveRight := false
      isMoving := false }

/-- `handleJoystickMove` from the earlier revision of the file: any non-zero
magnitude sets each flag by the sign of the corresponding raw component;
zero magnitude clears all four flags.  This revision does not touch
`isMoving` (it has no such ref). -/
noncomputable def handleJoystickMoveV0 (x y : ℝ) (st : PlayerState) : PlayerState :=
  let magnitude := min 1 (Real.sqrt (x * x + y * y))
  if magnitude > 0 then
    { st with
      moveForward := if y < 0 then true else false
      moveBackward := if y > 0 then true else false
      moveLeft := if x < 0 then true else false
      moveRight := if x > 0 then true else false }
  else
    { st with
      moveForward := false
      moveBackward := false
      moveLeft := false
      moveRight := false }

/-- The layer-type selection inside `generateTerrain`:
`y === height - 1 ? GRASS : y === height - 2 ? DIRT : STONE`
(arithmetic over JS numbers, hence over ℤ). -/
def layerType (height : ℕ) (y : ℤ) : ℕ :=
  if y = (height : ℤ) - 1 then GRASS
  else if y = (height : ℤ) - 2 then DIRT
  else STONE

/-- A terrain block as produced by `generateTerrain`: integer grid position
plus a block type. -/
structure TBlock where
  x : ℤ
  y : ℤ
  z : ℤ
  type : ℕ
deriving DecidableEq

/-- The inner `for (let y = 0; y < height; y++)` loop of `generateTerrain`:
one column of blocks stacked bottom-to-top at `(x, ·, z)`. -/
def genColumn (x z : ℤ) (height : ℕ) : List TBlock :=
  (List.range height).map (fun y => ⟨x, (y : ℤ), z, layerType height (y : ℤ)⟩)

/-- `generateTerrain`: the double loop `for x in [-5, 5)`, `for z in [-5, 5)`,
with each column's random `Math.floor(Math.random() * 3) + 1` height
supplied by the `heights` oracle. -/
def generateTerrain (heights : ℤ → ℤ → ℕ) : List TBlock :=
  (List.range 10).flatMap (fun ix =>
    (List.range 10).flatMap (fun iz =>
      genColumn ((ix : ℤ) - 5) ((iz : ℤ) - 5) (heights ((ix : ℤ) - 5) ((iz : ℤ) - 5))))

/-- A block mesh as held in the `blocks` array: `id` stands for the mesh's
object identity (each `new Mesh` is a fresh reference), `x y z` its
integer-aligned position and `type` its `userData.type`. -/
structure EBlock where
  id : ℕ
  x : ℤ
  y : ℤ
  z : ℤ
  type : ℕ
deriving DecidableEq

/-- The world state touched by the edit path: the `blocks` array, the set of
block meshes added to the `scene`, and a counter supplying the identity of
the next `new Mesh`. -/
structure World where
  blocks : List EBlock
  scene : List EBlock
  nextId : ℕ
deriving DecidableEq

/-- `createBlock`: make a fresh mesh at the given position with the given
type, `scene.add` it and `blocks.push` it. -/
def createBlock (w : World) (x y z : ℤ) (type : ℕ) : World :=
  let b : EBlock := ⟨w.nextId, x, y, z, type⟩
  { blocks := w.blocks ++ [b]
    scene := w.scene ++ [b]
    nextId := w.nextId + 1 }

/-- The two touch gestures dispatched by `handleTouch`. -/
inductive TouchType where
  | press
  | longPress
deriving DecidableEq

/-- One ray-cast hit as returned by `raycaster.intersectObjects(blocks)`:
the hit mesh and the optional face normal (`intersects[0].face?.normal`);
the normal of an axis-aligned unit cube face is an integer unit vector. -/
structure Hit where
  block : EBlock
  normal : Option (ℤ × ℤ × ℤ)
deriving DecidableEq

/-- `handleTouch`, with the external ray-cast result passed in as the ordered
hit list: no hit is a no-op; a press removes `intersects[0].object` from the
scene and filters it out of `blocks` (by object identity); a long-press
offsets the hit block's position by the face normal and creates a block of
the selected type there, and is silently skipped when the hit carries no
face normal. -/
def handleTouch (ev : TouchType) (hits : List Hit) (sel : ℕ) (w : World) : World :=
  match hits with
  | [] => w
  | h :: _ =>
    match ev with
    | .press =>
        { w with
          blocks := w.blocks.filter (fun b => b.id ≠ h.block.id)
          scene := w.scene.filter (fun b => b.id ≠ h.block.id) }
    | .longPress =>
        match h.normal with
        | none => w
        | some n => createBlock w (h.block.x + n.1) (h.block.y + n.2.1) (h.block.z + n.2.2) sel

/-! ## Theorems -/

/-- C2: whenever both `moveForward` and `moveBackward` are true, the raw
(pre-normalization) direction vector built by `updatePlayerMovement` has
z-component exactly `0`, for both strafe-flag values; and the four flags
contribute additively: the raw direction is the componentwise sum of the
four single-flag raw directions, with no mutual-exclusion reset. -/
theorem rawDirection_opposing_cancel :
    (∀ l r : Bool, (rawDirection true true l r).z = 0) ∧
    (∀ f b l r : Bool,
      rawDirection f b l r =
        (((rawDirection f false false false).add
            (rawDirection false b false false)).add
          (rawDirection false false l false)).add
        (rawDirection false false false r)) := by
  constructor
  · intro l r
    simp [rawDirection]
  · intro f b l r
    cases f <;> cases b <;> cases l <;> cases r <;>
      simp [rawDirection, Vec3.add]

/-- C3: with all four intent flags false, one `updatePlayerMovement` step
leaves the persisted `playerPosition` unchanged, for every starting
position, rotation (yaw and pitch), head-bob clock, `isMoving` flag and
camera pose: the zero raw direction survives the `length() || 1`
normalization guard as zero and contributes no displacement. -/
theorem update_no_intent_fixes_position
    (pos : Vec3) (rot : Euler) (t : ℝ) (m : Bool) (cp : Vec3) (cr : Euler) :
    (updatePlayerMovement ⟨false, false, false, false, m, t, pos, rot, cp, cr⟩).playerPosition
      = pos := by
  simp [updatePlayerMovement, rawDirection, Vec3.normalize, Vec3.length,
    applyEulerY, Vec3.multiplyScalar, Vec3.add]

/-- C4: with `moveForward = true`, `moveBackward = false`, both strafe flags
false and pitch `π/2`, one `updatePlayerMovement` step raises the persisted
`playerPosition.y` by exactly `sin(π/2) * MOVEMENT_SPEED`, which equals
`MOVEMENT_SPEED`, for every yaw (and roll, clock, camera pose). -/
theorem update_forward_pitch_up_vertical_delta
    (pos : Vec3) (yaw rz t : ℝ) (m : Bool) (cp : Vec3) (cr : Euler) :
    (updatePlayerMovement
        ⟨true, false, false, false, m, t, pos, ⟨Real.pi / 2, yaw, rz⟩, cp, cr⟩).playerPosition.y
      = pos.y + Real.sin (Real.pi / 2) * MOVEMENT_SPEED ∧
    (updatePlayerMovement
        ⟨true, false, false, false, m, t, pos, ⟨Real.pi / 2, yaw, rz⟩, cp, cr⟩).playerPosition.y
      = pos.y + MOVEMENT_SPEED := by
  constructor <;>
    simp [updatePlayerMovement, rawDirection, Vec3.normalize, Vec3.length,
      applyEulerY, Vec3.multiplyScalar, Vec3.add, Real.sin_pi_div_two,
      MOVEMENT_SPEED]

/-- C5: a joystick input whose offset magnitude is below the `0.1` deadzone
threshold makes `handleJoystickMove` clear all four intent flags (and the
`isMoving` flag), whatever the previous state. -/
theorem joystick_below_deadzone_clears_flags (x y : ℝ) (st : PlayerState)
    (h : Real.sqrt (x * x + y * y) < 0.1) :
    (handleJoystickMove x y st).moveForward = false ∧
    (handleJoystickMove x y st).moveBackward = false ∧
    (handleJoystickMove x y st).moveLeft = false ∧
    (handleJoystickMove x y st).moveRight = false ∧
    (handleJoystickMove x y st).isMoving = false := by
  have hmag : ¬ (min 1 (Real.sqrt (x * x + y * y)) > 0.1) := by
    have : min 1 (Real.sqrt (x * x + y * y)) ≤ Real.sqrt (x * x + y * y) :=
      min_le_right _ _
    push_neg
    linarith
  simp [handleJoystickMove, hmag]

/-- Witness for C5 at the concrete input `(0, 0)` from the initial state. -/
theorem joystick_below_deadzone_clears_flags_witness :
    (handleJoystickMove 0 0 initState).moveForward = false ∧
    (handleJoystickMove 0 0 initState).moveBackward = false ∧
    (handleJoystickMove 0 0 initState).moveLeft = false ∧
    (handleJoystickMove 0 0 initState).moveRight = false ∧
    (handleJoystickMove 0 0 initState).isMoving = false :=
  joystick_below_deadzone_clears_flags 0 0 initState
    (by rw [show (0 : ℝ) * 0 + 0 * 0 = 0 by norm_num, Real.sqrt_zero]; norm_num)

/-- C10: neither revision of the joystick-to-intent mapping can ever set
`moveForward` and `moveBackward` simultaneously, nor `moveLeft` and
`moveRight` simultaneously; the keyboard path, by contrast, does produce
such a conflict (pressing `w` then `s` leaves both opposing flags true). -/
theorem joystick_no_opposing_flags (x y : ℝ) (st : PlayerState) :
    (((handleJoystickMove x y st).moveForward
        && (handleJoystickMove x y st).moveBackward) = false ∧
     ((handleJoystickMove x y st).moveLeft
        && (handleJoystickMove x y st).moveRight) = false) ∧
    (((handleJoystickMoveV0 x y st).moveForward
        && (handleJoystickMoveV0 x y st).moveBackward) = false ∧
     ((handleJoystickMoveV0 x y st).moveLeft
        && (handleJoystickMoveV0 x y st).moveRight) = false) ∧
    ((handleKeyDown "s" (handleKeyDown "w" initState)).moveForward = true ∧
     (handleKeyDown "s" (handleKeyDown "w" initState)).moveBackward = true) := by
  refine ⟨⟨?_, ?_⟩, ⟨?_, ?_⟩, ?_, ?_⟩
  · simp only [handleJoystickMove]
    split_ifs <;> simp_all <;> linarith
  · simp only [handleJoystickMove]
    split_ifs <;> simp_all <;> linarith
  · simp only [handleJoystickMoveV0]
    split_ifs <;> simp_all <;> linarith
  · simp only [handleJoystickMoveV0]
    split_ifs <;> simp_all <;> linarith
  · rfl
  · rfl

/-- One drag-move event always leaves the pitch inside `[-π/2, π/2]` and the
roll exactly `0`, whatever the previous rotation. -/
theorem onDragMove_pitch_roll (rot : Euler) (dx dy : ℝ) :
    -(Real.pi / 2) ≤ (onDragMove rot dx dy).x ∧
    (onDragMove rot dx dy).x ≤ Real.pi / 2 ∧
    (onDragMove rot dx dy).z = 0 := by
  have hpi : (0 : ℝ) < Real.pi := Real.pi_pos
  refine ⟨?_, ?_, rfl⟩
  · exact le_max_left _ _
  · exact max_le (by linarith) (min_le_left _ _)

/-- C1: starting from the initial pose `(0, 0, 0)` and applying any sequence
of drag-to-look move events, the pitch (`playerRotation.x`) stays within
`[-π/2, π/2]` and the roll (`playerRotation.z`) is exactly `0`; moreover the
per-frame camera update always writes roll `0` into the camera rotation.
(Quantifying over all event lists covers the pose after every prefix of a
drag sequence, i.e. after each individual update.) -/
theorem drag_pitch_clamped_roll_zero :
    (∀ events : List (ℝ × ℝ),
      -(Real.pi / 2) ≤
          (events.foldl (fun rot e => onDragMove rot e.1 e.2) ⟨0, 0, 0⟩).x ∧
      (events.foldl (fun rot e => onDragMove rot e.1 e.2) ⟨0, 0, 0⟩).x ≤
          Real.pi / 2 ∧
      (events.foldl (fun rot e => onDragMove rot e.1 e.2) ⟨0, 0, 0⟩).z = 0) ∧
    (∀ st : PlayerState, (updatePlayerMovement st).cameraRotation.z = 0) := by
  constructor
  · intro events
    have hpi : (0 : ℝ) < Real.pi := Real.pi_pos
    have general :
        ∀ (l : List (ℝ × ℝ)) (rot : Euler),
          -(Real.pi / 2) ≤ rot.x → rot.x ≤ Real.pi / 2 → rot.z = 0 →
          -(Real.pi / 2) ≤ (l.foldl (fun r e => onDragMove r e.1 e.2) rot).x ∧
          (l.foldl (fun r e => onDragMove r e.1 e.2) rot).x ≤ Real.pi / 2 ∧
          (l.foldl (fun r e => onDragMove r e.1 e.2) rot).z = 0 := by
      intro l
      induction l with
      | nil => intro rot h1 h2 h3; exact ⟨h1, h2, h3⟩
      | cons e rest ih =>
          intro rot _ _ _
          have step := onDragMove_pitch_roll rot e.1 e.2
          exact ih (onDragMove rot e.1 e.2) step.1 step.2.1 step.2.2
    exact general events ⟨0, 0, 0⟩ (by dsimp; linarith) (by dsimp; linarith) rfl
  · intro st
    rfl

/-- C8: when the ray cast returns no hits, `handleTouch` is a no-op for both
gestures — blocks, scene and id counter are all unchanged; and when a
long-press hit carries no face normal, the add-edit is silently skipped,
leaving the world unchanged. -/
theorem handleTouch_miss_or_no_normal_noop :
    (∀ (ev : TouchType) (sel : ℕ) (w : World), handleTouch ev [] sel w = w) ∧
    (∀ (h : Hit) (rest : List Hit) (sel : ℕ) (w : World),
      h.normal = none → handleTouch .longPress (h :: rest) sel w = w) := by
  constructor
  · intro ev sel w
    cases ev <;> rfl
  · intro h rest sel w hn
    simp [handleTouch, hn]

/-- Witness for C8: an empty hit list and a normal-less long-press hit, on a
concrete world. -/
theorem handleTouch_miss_or_no_normal_noop_witness :
    handleTouch .press [] GRASS ⟨[], [], 0⟩ = ⟨[], [], 0⟩ ∧
    handleTouch .longPress [⟨⟨0, 0, 0, 0, GRASS⟩, none⟩] GRASS ⟨[], [], 0⟩
      = ⟨[], [], 0⟩ :=
  ⟨handleTouch_miss_or_no_normal_noop.1 .press GRASS ⟨[], [], 0⟩,
   handleTouch_miss_or_no_normal_noop.2 ⟨⟨0, 0, 0, 0, GRASS⟩, none⟩ [] GRASS
     ⟨[], [], 0⟩ rfl⟩

/-- C9: a long-press add-edit (hit with a face normal) grows the `blocks`
array by one, creating the block at the hit position offset by the normal;
an immediately following tap remove-edit whose first hit is that newly
created mesh returns the `blocks` array to its size before the add.  The
hypothesis says every existing mesh's identity predates the fresh one, which
holds of every world built through `createBlock`. -/
theorem handleTouch_add_remove_roundtrip
    (w : World) (sel : ℕ) (hb : EBlock) (n : ℤ × ℤ × ℤ)
    (n2 : Option (ℤ × ℤ × ℤ)) (rest rest2 : List Hit)
    (hid : ∀ b ∈ w.blocks, b.id < w.nextId) :
    (handleTouch .longPress (⟨hb, some n⟩ :: rest) sel w).blocks.length
        = w.blocks.length + 1 ∧
    (handleTouch .press
        (⟨⟨w.nextId, hb.x + n.1, hb.y + n.2.1, hb.z + n.2.2, sel⟩, n2⟩ :: rest2)
        sel
        (handleTouch .longPress (⟨hb, some n⟩ :: rest) sel w)).blocks.length
      = w.blocks.length := by
  constructor
  · simp [handleTouch, createBlock]
  · simp only [handleTouch, createBlock]
    rw [List.filter_append]
    have h1 : w.blocks.filter (fun b => decide (b.id ≠ w.nextId)) = w.blocks := by
      apply List.filter_eq_self.mpr
      intro b hb'
      simpa using Nat.ne_of_lt (hid b hb')
    have h2 :
        ([(⟨w.nextId, hb.x + n.1, hb.y + n.2.1, hb.z + n.2.2, sel⟩ : EBlock)].filter
            (fun b => decide (b.id ≠ w.nextId))) = [] := by
      simp
    rw [h1, h2, List.append_nil]

/-- Witness for C9: adding above the single block of a one-block world and
then removing the created block restores size `1`. -/
theorem handleTouch_add_remove_roundtrip_witness :
    (handleTouch .longPress [⟨⟨0, 0, 0, 0, GRASS⟩, some (0, 1, 0)⟩] GRASS
        ⟨[⟨0, 0, 0, 0, GRASS⟩], [⟨0, 0, 0, 0, GRASS⟩], 1⟩).blocks.length = 2 ∧
    (handleTouch .press [⟨⟨1, 0 + 0, 0 + 1, 0 + 0, GRASS⟩, none⟩] GRASS
        (handleTouch .longPress [⟨⟨0, 0, 0, 0, GRASS⟩, some (0, 1, 0)⟩] GRASS
          ⟨[⟨0, 0, 0, 0, GRASS⟩], [⟨0, 0, 0, 0, GRASS⟩], 1⟩)).blocks.length = 1 :=
  handleTouch_add_remove_roundtrip
    ⟨[⟨0, 0, 0, 0, GRASS⟩], [⟨0, 0, 0, 0, GRASS⟩], 1⟩ GRASS
    ⟨0, 0, 0, 0, GRASS⟩ (0, 1, 0) none [] [] (by decide)

/-- C6: for every height oracle drawing from the fixed range `1..3` and every
column `(x, z)` of the fixed `[-5, 5) × [-5, 5)` grid, the generated terrain
contains a block at `(x, y, z)` exactly for `0 ≤ y <` the column height — a
contiguous stack starting at height `0` — whose type is the layer type; and
the layer type makes the topmost layer Grass, the layer directly below the
top Dirt whenever the height is at least `2`, and every lower layer Stone. -/
theorem generateTerrain_column_structure
    (heights : ℤ → ℤ → ℕ)
    (_hrange : ∀ a b : ℤ, 1 ≤ heights a b ∧ heights a b ≤ 3)
    (x z : ℤ) (hx1 : -5 ≤ x) (hx2 : x < 5) (hz1 : -5 ≤ z) (hz2 : z < 5) :
    (∀ (y : ℤ) (t : ℕ),
        (⟨x, y, z, t⟩ : TBlock) ∈ generateTerrain heights ↔
          (0 ≤ y ∧ y < (heights x z : ℤ) ∧ t = layerType (heights x z) y)) ∧
    layerType (heights x z) ((heights x z : ℤ) - 1) = GRASS ∧
    (2 ≤ heights x z → layerType (heights x z) ((heights x z : ℤ) - 2) = DIRT) ∧
    (∀ y : ℤ, 0 ≤ y → y < (heights x z : ℤ) - 2 →
      layerType (heights x z) y = STONE) := by
  refine ⟨?_, ?_, ?_, ?_⟩
  · intro y t
    constructor
    · intro hmem
      simp only [generateTerrain, genColumn, List.mem_flatMap, List.mem_map,
        List.mem_range, TBlock.mk.injEq] at hmem
      obtain ⟨ix, hix, iz, hiz, yy, hyy, hxe, hye, hze, hte⟩ := hmem
      simp only [List.bind_eq_flatMap, List.mem_flatMap, List.mem_range,
        List.mem_pure] at hyy
      obtain ⟨a, ha, rfl⟩ := hyy
      rw [← hxe, ← hze]
      refine ⟨by omega, by omega, ?_⟩
      rw [← hye, ← hte]
    · rintro ⟨hy0, hyh, ht⟩
      simp only [generateTerrain, genColumn, List.mem_flatMap, List.mem_map,
        List.mem_range, TBlock.mk.injEq, List.bind_eq_flatMap, List.mem_pure]
      have hx' : ((x + 5).toNat : ℤ) - 5 = x := by omega
      have hz' : ((z + 5).toNat : ℤ) - 5 = z := by omega
      have hy' : ((y.toNat : ℤ)) = y := by omega
      refine ⟨(x + 5).toNat, by omega, (z + 5).toNat, by omega, (y.toNat : ℤ),
        ?_, hx', hy', hz', ?_⟩
      · refine ⟨y.toNat, ?_, rfl⟩
        rw [hx', hz']
        omega
      · rw [hx', hz', hy']
        exact ht.symm
  · rw [layerType, if_pos rfl]
  · intro h2
    rw [layerType, if_neg (by omega), if_pos rfl]
  · intro y hy0 hyl
    rw [layerType, if_neg (by omega), if_neg (by omega)]

/-- Witness for C6: the constant-height-2 oracle at column `(0, 0)`. -/
theorem generateTerrain_column_structure_witness :
    (∀ (y : ℤ) (t : ℕ),
        (⟨0, y, 0, t⟩ : TBlock) ∈ generateTerrain (fun _ _ => 2) ↔
          (0 ≤ y ∧ y < ((2 : ℕ) : ℤ) ∧ t = layerType 2 y)) ∧
    layerType 2 (((2 : ℕ) : ℤ) - 1) = GRASS ∧
    (2 ≤ 2 → layerType 2 (((2 : ℕ) : ℤ) - 2) = DIRT) ∧
    (∀ y : ℤ, 0 ≤ y → y < ((2 : ℕ) : ℤ) - 2 → layerType 2 y = STONE) :=
  generateTerrain_column_structure (fun _ _ => 2)
    (fun _ _ => ⟨by norm_num, by norm_num⟩) 0 0
    (by norm_num) (by norm_num) (by norm_num) (by norm_num)

/-- C7 counterexample: the head-bob offset is driven by the `isMoving` ref
recorded at the end of the PREVIOUS update (or by the joystick handler), not
by the current intent flags.  Concretely: from the initial state, a joystick
push to full forward sets `moveForward` and `isMoving`; a `w` key-up then
clears `moveForward` (and leaves `isMoving` untouched).  All four intent
flags are now false, yet the next `updatePlayerMovement` applies a non-zero
head-bob offset — the rendered camera height differs from the persisted
player height — refuting “the offset is 0 when all flags are false”. -/
theorem headbob_nonzero_with_all_flags_false :
    ((handleKeyUp "w" (handleJoystickMove 0 (-1) initState)).moveForward = false ∧
     (handleKeyUp "w" (handleJoystickMove 0 (-1) initState)).moveBackward = false ∧
     (handleKeyUp "w" (handleJoystickMove 0 (-1) initState)).moveLeft = false ∧
     (handleKeyUp "w" (handleJoystickMove 0 (-1) initState)).moveRight = false) ∧
    (updatePlayerMovement
        (handleKeyUp "w" (handleJoystickMove 0 (-1) initState))).cameraPosition.y
      ≠ (updatePlayerMovement
        (handleKeyUp "w" (handleJoystickMove 0 (-1) initState))).playerPosition.y := by
  have hJ : handleJoystickMove 0 (-1) initState =
      { initState with moveForward := true, isMoving := true } := by
    simp only [handleJoystickMove]
    rw [show ((0 : ℝ) * 0 + (-1) * (-1)) = 1 by norm_num, Real.sqrt_one]
    norm_num [initState]
  have hS : handleKeyUp "w" (handleJoystickMove 0 (-1) initState) =
      { initState with isMoving := true } := by
    rw [hJ]
    rfl
  rw [hS]
  refine ⟨⟨rfl, rfl, rfl, rfl⟩, ?_⟩
  have hsin : 0 < Real.sin ((initState.time + 0.016) * HEAD_BOB_FREQUENCY) := by
    apply Real.sin_pos_of_pos_of_lt_pi
    · norm_num [initState, HEAD_BOB_FREQUENCY]
    · have hpi := Real.pi_gt_three
      norm_num [initState, HEAD_BOB_FREQUENCY]
      linarith
  simp only [updatePlayerMovement]
  dsimp
  intro heq
  rw [HEAD_BOB_AMPLITUDE] at heq
  nlinarith [hsin]

/-- C7 as amended: on every update the head-bob offset goes only into the
rendered camera position — the persisted position is independent of the
head-bob clock and of `isMoving` — and the offset is applied exactly while
the `isMoving` flag recorded by the previous update (or joystick event) is
true, one update behind the raw intent flags: it is `0` when `isMoving` is
false, it is the sinusoid value when `isMoving` is true (and in particular
non-zero at every clock value reachable by the fixed `0.016` increments),
and at the end of the update `isMoving` is resynchronised to the flags. -/
theorem headbob_camera_only_follows_isMoving (st : PlayerState) (m : Bool) (t : ℝ) :
    ((updatePlayerMovement { st with isMoving := m, time := t }).playerPosition
        = (updatePlayerMovement st).playerPosition) ∧
    ((updatePlayerMovement st).cameraPosition.x
        = (updatePlayerMovement st).playerPosition.x ∧
     (updatePlayerMovement st).cameraPosition.z
        = (updatePlayerMovement st).playerPosition.z) ∧
    (st.isMoving = false →
      (updatePlayerMovement st).cameraPosition.y
        = (updatePlayerMovement st).playerPosition.y) ∧
    (st.isMoving = true →
      (updatePlayerMovement st).cameraPosition.y
        = (updatePlayerMovement st).playerPosition.y
          + Real.sin ((st.time + 0.016) * HEAD_BOB_FREQUENCY) * HEAD_BOB_AMPLITUDE) ∧
    ((updatePlayerMovement st).isMoving
        = (st.moveForward || st.moveBackward || st.moveLeft || st.moveRight)) ∧
    (st.isMoving = true → (∃ k : ℕ, st.time = 0.016 * k) →
      (updatePlayerMovement st).cameraPosition.y
        ≠ (updatePlayerMovement st).playerPosition.y) := by
  refine ⟨rfl, ⟨rfl, rfl⟩, ?_, ?_, rfl, ?_⟩
  · intro h
    simp [updatePlayerMovement, h]
  · intro h
    simp [updatePlayerMovement, h]
  · intro h hk
    obtain ⟨k, hk⟩ := hk
    have hsin : Real.sin ((st.time + 0.016) * HEAD_BOB_FREQUENCY) ≠ 0 := by
      rw [hk, HEAD_BOB_FREQUENCY]
      intro h0
      obtain ⟨n, hn⟩ := Real.sin_eq_zero_iff.mp h0
      have hxpos : (0 : ℝ) < (0.016 * (k : ℝ) + 0.016) * 0.1 := by
        have : (0 : ℝ) ≤ (k : ℝ) := Nat.cast_nonneg k
        nlinarith
      have hnpos : (0 : ℝ) < (n : ℝ) := by
        by_contra hle
        push_neg at hle
        have : (n : ℝ) * Real.pi ≤ 0 :=
          mul_nonpos_of_nonpos_of_nonneg hle Real.pi_pos.le
        linarith [hn ▸ hxpos]
      have hn1 : (1 : ℝ) ≤ (n : ℝ) := by
        have : (0 : ℤ) < n := by exact_mod_cast hnpos
        exact_mod_cast this
      have hq : ((((16 * ((k : ℚ) + 1)) / (10000 * (n : ℚ))) : ℚ) : ℝ) = Real.pi := by
        push_cast
        rw [div_eq_iff (by linarith)]
        nlinarith [hn]
      exact irrational_pi ⟨_, hq⟩
    simp only [updatePlayerMovement, h]
    dsimp
    intro heq
    rw [HEAD_BOB_AMPLITUDE] at heq
    have : Real.sin ((st.time + 0.016) * HEAD_BOB_FREQUENCY) * 0.05 = 0 := by
      linarith
    rcases mul_eq_zero.mp this with h1 | h1
    · exact hsin h1
    · norm_num at h1

/-- Witness for the amended C7 at concrete states: with `isMoving` true the
camera height is the player height plus the sinusoid and differs from it;
with `isMoving` false (the initial state) the two heights coincide. -/
theorem headbob_camera_only_follows_isMoving_witness :
    ((updatePlayerMovement { initState with isMoving := true }).cameraPosition.y
      = (updatePlayerMovement { initState with isMoving := true }).playerPosition.y
        + Real.sin ((initState.time + 0.016) * HEAD_BOB_FREQUENCY)
          * HEAD_BOB_AMPLITUDE) ∧
    ((updatePlayerMovement { initState with isMoving := true }).cameraPosition.y
      ≠ (updatePlayerMovement { initState with isMoving := true }).playerPosition.y) ∧
    ((updatePlayerMovement initState).cameraPosition.y
      = (updatePlayerMovement initState).playerPosition.y) :=
  ⟨(headbob_camera_only_follows_isMoving
      { initState with isMoving := true } false 0).2.2.2.1 rfl,
   (headbob_camera_only_follows_isMoving
      { initState with isMoving := true } false 0).2.2.2.2.2 rfl
     ⟨0, by norm_num [initState]⟩,
   (headbob_camera_only_follows_isMoving initState false 0).2.2.1 rfl⟩

end VibeCoding
